import Mathlib

/-
Verification of the mpmorph density-convergence workflow
(src/mpmorph/workflow/mdtasks.py and src/mpmorph/workflow/workflows.py)
against its natural-language specification.

Floating-point values of the Python source are modelled as rationals (ℚ);
all comparisons and arithmetic in the relevant code paths are exact, so no
rounding behaviour is lost.
-/

/-- A value stored in a VASP INCAR settings dictionary (the source only ever
stores the integer 1 and the boolean False). -/
inductive IncarVal where
  | int (n : ℤ)
  | bool (b : Bool)
deriving DecidableEq

/-- A value stored in an FWAction stored_data record: the source stores
pressures (floats) and the density_calculated flag (bool). -/
inductive StoredVal where
  | num (q : ℚ)
  | bool (b : Bool)
deriving DecidableEq

/-- Labels for the firetasks appended by the workflow code, carrying exactly
the parameters the claims are about.  `rescaleVolumeTask ip it` records the
`RescaleVolumeTask(initial_pressure=ip, initial_temperature=it)` call of
mdtasks.py line 63; `spawnMDFW pt mr sc` records a
`SpawnMDFWTask(pressure_threshold=pt, max_rescales=mr, ..., spawn_count=sc)`
call as made by workflows.py lines 62-65; `copyCalsHome ch` records
`CopyCalsHome(calc_home=ch, run_name="run0")`.  Remaining parameters of each
task are opaque configuration, forwarded unchanged, and are not modelled. -/
inductive TaskLabel where
  | copyVaspOutputs
  | rescaleVolumeTask (initialPressure : ℚ) (initialTemperature : ℚ)
  | runVaspCustodian
  | passCalcLocs
  | vaspToDbTask
  | getPressureTask
  | spawnMDFW (pressureThreshold : ℚ) (maxRescales : ℕ) (spawnCount : ℕ)
  | copyCalsHome (calcHome : String)
deriving DecidableEq

/-- True exactly for the re-decide (spawn-decision) step. -/
def isSpawnDecide : TaskLabel → Bool
  | .spawnMDFW _ _ _ => true
  | _ => false

/-- A `Firework(tasks, parents=...)` record.  `parents = none` models the
Python value `None` being passed for the parents argument, i.e. a firework
with no declared dependency. -/
structure FireworkRec where
  tasks : List TaskLabel
  parents : Option (List ℕ)
deriving DecidableEq

/-- An `FWAction(stored_data=..., additions=...)` record. -/
structure FWAction where
  storedData : List (String × StoredVal)
  additions : List FireworkRec
deriving DecidableEq

/-- Python's `xs.extend(ys)` mutates `xs` in place and returns `None`; the
VALUE of the expression `parents.extend(t)` is therefore `None`, whatever the
two lists are.  This models the expression value used at mdtasks.py line 72,
`Firework(t, parents=parents.extend(t))`. -/
def listExtendReturn {α β : Type} (_xs : List α) (_ys : List β) : Option (List α) :=
  none

/-- The task list `t` built by `SpawnMDFWTask.run_task` (mdtasks.py lines
60-69) for the firework it may spawn: CopyVaspOutputs, RescaleVolumeTask
(with `initial_pressure=avg_pres` and the literal `initial_temperature=1`),
RunVaspCustodian, PassCalcLocs, VaspToDbTask, GetPressureTask.  No
SpawnMDFWTask is appended. -/
def spawnTaskList (avgPres : ℚ) : List TaskLabel :=
  [ .copyVaspOutputs,
    .rescaleVolumeTask avgPres 1,
    .runVaspCustodian,
    .passCalcLocs,
    .vaspToDbTask,
    .getPressureTask ]

/-- Embeds `SpawnMDFWTask.run_task` (mdtasks.py lines 54-75).  The name `avg_pres`
used by the source is unbound in the function body (the spec's §9 flags this
and assumes the evidently intended reading: it is the measured pressure of
the completed cycle); it is modelled here as the input `avgPres`.  The task
reads only `pressure_threshold` and the opaque VASP configuration from its
parameters — in particular it reads no `spawn_count` and no `max_rescales` —
and `parents` from the fw_spec.  If `avg_pres > pressure_threshold` it returns
an FWAction storing `{pressure: avg_pres}` and adding one new firework built
from `spawnTaskList` with parents `parents.extend(t)` (which is `None`);
otherwise it returns an FWAction storing
`{pressure: avg_pres, density_calculated: True}` with no additions. -/
def runSpawnMDFWTask (pressureThreshold : ℚ) (parents : List ℕ) (avgPres : ℚ) :
    FWAction :=
  let t := spawnTaskList avgPres
  if avgPres > pressureThreshold then
    { storedData := [("pressure", .num avgPres)],
      additions := [{ tasks := t, parents := listExtendReturn parents t }] }
  else
    { storedData := [("pressure", .num avgPres), ("density_calculated", .bool true)],
      additions := [] }

/-- The thermodynamic parameters of one `RescaleVolumeTask` run, after the
optional-parameter resolution of mdtasks.py lines 88-93. -/
structure RescaleParams where
  initialTemperature : ℚ
  initialPressure : ℚ
  targetTemperature : ℚ
  targetPressure : ℚ
  alpha : ℚ
  beta : ℚ
deriving DecidableEq

/-- The optional-parameter resolution of `RescaleVolumeTask.run_task`
(mdtasks.py lines 88-93): `target_temperature` defaults to
`initial_temperature`, `target_pressure` to `0.0`, `alpha` to the source
literal `10e-6` and `beta` to the source literal `10e-7`. -/
def resolveRescaleParams (initialTemperature initialPressure : ℚ)
    (targetTemperature targetPressure alpha beta : Option ℚ) : RescaleParams :=
  { initialTemperature := initialTemperature
    initialPressure := initialPressure
    targetTemperature := targetTemperature.getD initialTemperature
    targetPressure := targetPressure.getD 0
    alpha := alpha.getD (10 / 1000000)
    beta := beta.getD (10 / 10000000) }

/-- The two values of the `scale` string argument of `by_thermo` that the
source passes (`scale='temperature'` at mdtasks.py line 99 and
`scale='pressure'` at line 102). -/
inductive ScaleKind where
  | temperature
  | pressure
deriving DecidableEq

/-- Modelled from the spec: `RescaleVolume.by_thermo` lives in
`mpmorph/runners/rescale_volume.py`, which is not among the provided sources;
spec §4.2 defines it on the running volume as the thermal correction
`V *= 1 + alpha * (target_temperature - initial_temperature)` for
`scale='temperature'` and the pressure correction
`V *= 1 - beta * (target_pressure - initial_pressure)` for
`scale='pressure'`. -/
def byThermo (p : RescaleParams) (scale : ScaleKind) (v : ℚ) : ℚ :=
  match scale with
  | .temperature => v * (1 + p.alpha * (p.targetTemperature - p.initialTemperature))
  | .pressure => v * (1 - p.beta * (p.targetPressure - p.initialPressure))

/-- The volume pipeline of `RescaleVolumeTask.run_task` (mdtasks.py lines
94-104): `corr_vol.by_thermo(scale='temperature')` followed on the same
object by `corr_vol.by_thermo(scale='pressure')`, i.e. the pressure
correction is applied to the thermally corrected running volume. -/
def runRescaleVolume (p : RescaleParams) (v0 : ℚ) : ℚ :=
  byThermo p .pressure (byThermo p .temperature v0)

/-- The volume that would result from combining the two corrections
independently on the original volume (adding both deltas to it), rather than
sequentially on the running volume.  Used only to show the source pipeline is
not this. -/
def independentCorrections (p : RescaleParams) (v0 : ℚ) : ℚ :=
  v0 * (1 + p.alpha * (p.targetTemperature - p.initialTemperature)
          - p.beta * (p.targetPressure - p.initialPressure))

/-- Embeds `GetPressureTask.run_task` (mdtasks.py lines 45-47): calls
`parse_pressure(outcar_path, averaging_fraction)` with the averaging fraction
defaulting to `0.5` and stores `p[0] * 1000` under the key `avg_pres`.
`parse_pressure` (mpmorph/analysis/md_data.py, not among the provided
sources) is abstracted as an arbitrary function from the averaging fraction
to the list of parsed values; indexing `p[0]` on an empty result raises, so
that case yields `none`. -/
def runGetPressureTask (parsePres : ℚ → List ℚ) (averagingFraction : Option ℚ) :
    Option FWAction :=
  match parsePres (averagingFraction.getD (1 / 2)) with
  | [] => none
  | p0 :: _ =>
      some { storedData := [("avg_pres", .num (p0 * 1000))], additions := [] }

/-- The shape of the `structure` argument of `get_wf_density`: a pymatgen
`Structure` instance, a plain dict (a composition mapping), or any other
value (which, like a `Structure`, skips the amorphous-maker branch of
workflows.py line 43). -/
inductive StructureArg where
  | struct
  | comp
  | other
deriving DecidableEq

/-- Whether a path exists, over a filesystem modelled as the list of existing
paths (`os.path.exists`). -/
def pathExists (fs : List String) (p : String) : Bool :=
  fs.contains p

/-- Python truthiness test `not x` for an optional dict-like value: true for
`None` and for an empty mapping. -/
def falsyOptList {α : Type} : Option (List α) → Bool
  | none => true
  | some l => l.isEmpty

/-- The ValueErrors raised by `get_wf_density` (workflows.py lines 33-45). -/
inductive WfError where
  | calcHomeMissing
  | nameExists
  | ampMissing
deriving DecidableEq

/-- Python `dict.__setitem__` on a string-keyed association list: replaces the value
of an existing key in place, appends a new key at the end. -/
def dictInsert (k : String) (v : IncarVal) :
    List (String × IncarVal) → List (String × IncarVal)
  | [] => [(k, v)]
  | (k2, v2) :: rest =>
      if k2 = k then (k, v) :: rest else (k2, v2) :: dictInsert k v rest

/-- Python `dict.__getitem__` lookup on a string-keyed association list. -/
def dictGet (k : String) : List (String × IncarVal) → Option IncarVal
  | [] => none
  | (k2, v2) :: rest => if k2 = k then some v2 else dictGet k rest

/-- The caller's `user_incar_settings` mapping as seen by workflows.py lines
50-51.  The outer `Option` models `override_default_vasp_params` itself being
`None` (line 50: `override_default_vasp_params or {}` yields `{}`, which has
no `user_incar_settings` key); the inner `Option` models the presence of the
`user_incar_settings` key (`dict.get` returns `None` when absent); `or {}` on
the looked-up value maps a falsy empty dict to `{}`. -/
def callerIncar : Option (Option (List (String × IncarVal))) →
    List (String × IncarVal)
  | none => []
  | some none => []
  | some (some m) => if m.isEmpty then [] else m

/-- workflows.py lines 50-52: the `user_incar_settings` dict actually passed
to the MD firework — the caller's mapping updated with
`{"ISIF": 1, "LWAVE": False}` (dict.update sets the keys in literal order). -/
def resolveUserIncarSettings (ov : Option (Option (List (String × IncarVal)))) :
    List (String × IncarVal) :=
  dictInsert "LWAVE" (.bool false) (dictInsert "ISIF" (.int 1) (callerIncar ov))

/-- The MDFW firework built at workflows.py lines 54-57, keeping the fields
the claims are about. -/
structure MDFWRec where
  startTemp : ℚ
  endTemp : ℚ
  nsteps : ℕ
  name : String
  userIncarSettings : List (String × IncarVal)
deriving DecidableEq

/-- The `Workflow([fw1, fw2], name=name+"_WF")` value returned by
`get_wf_density`. -/
structure WorkflowRec where
  fw1 : MDFWRec
  fw2Tasks : List TaskLabel
  name : String
deriving DecidableEq

/-- The arguments of `get_wf_density` that the claims depend on; the
remaining parameters (vasp_input_set, vasp_cmd, db_file, wall_time,
optional_MDWF_params, ...) are opaque configuration forwarded unchanged. -/
structure DensityArgs where
  copyCalcs : Bool
  calcHome : String
  name : String
  structureArg : StructureArg
  amorphousMakerParams : Option (List (String × ℚ))
  overrideParams : Option (Option (List (String × IncarVal)))
  temperature : ℚ
  nsteps : ℕ
  pressureThreshold : ℚ
  maxRescales : ℕ
deriving DecidableEq

/-- workflows.py lines 49-68: construction of fw1 (the MD firework), fw2
(copy outputs, optionally CopyCalsHome, then the SpawnMDFWTask seeded with
`spawn_count=0`) and the workflow.  Reached only after every validation check
of lines 33-47 has passed. -/
def buildWorkflow (a : DensityArgs) (calcHome : String) : Except WfError WorkflowRec :=
  Except.ok
    { fw1 :=
        { startTemp := a.temperature
          endTemp := a.temperature
          nsteps := a.nsteps
          name := a.name ++ "run0"
          userIncarSettings := resolveUserIncarSettings a.overrideParams }
      fw2Tasks :=
        [TaskLabel.copyVaspOutputs]
          ++ (if a.copyCalcs then [TaskLabel.copyCalsHome calcHome] else [])
          ++ [TaskLabel.spawnMDFW a.pressureThreshold a.maxRescales 0]
      name := a.name ++ "_WF" }

/-- workflows.py lines 42-47: if the structure argument is a plain dict (a
composition), `amorphous_maker_params` must be truthy, else
`ValueError("amorphous_maker_params must be defined!")`; otherwise the
argument is used as is. -/
def buildAfterCopyCheck (a : DensityArgs) (calcHome : String) :
    Except WfError WorkflowRec :=
  match a.structureArg with
  | StructureArg.comp =>
      if falsyOptList a.amorphousMakerParams then Except.error WfError.ampMissing
      else buildWorkflow a calcHome
  | _ => buildWorkflow a calcHome

/-- Embeds `get_wf_density` (workflows.py lines 11-68) over a filesystem modelled as
the list of existing paths.  When `copy_calcs` is set, line 34 requires
`calc_home` to exist and line 36 requires `calc_home + "/" + name` not to
exist, each violation raising a `ValueError` before any firework is built;
on success `calc_home` becomes the joined path.  The `os.mkdir` side effect
is not modelled. -/
def getWfDensity (fs : List String) (a : DensityArgs) : Except WfError WorkflowRec :=
  if a.copyCalcs then
    if pathExists fs a.calcHome = false then Except.error WfError.calcHomeMissing
    else if pathExists fs (a.calcHome ++ "/" ++ a.name) then Except.error WfError.nameExists
    else buildAfterCopyCheck a (a.calcHome ++ "/" ++ a.name)
  else buildAfterCopyCheck a a.calcHome

/-- Whether an `Except` result is an error, i.e. the Python call raised. -/
def isError {ε α : Type} : Except ε α → Bool
  | Except.error _ => true
  | Except.ok _ => false

theorem dictGet_dictInsert_self (k : String) (v : IncarVal)
    (m : List (String × IncarVal)) : dictGet k (dictInsert k v m) = some v := by
  induction m with
  | nil => simp [dictInsert, dictGet]
  | cons hd tl ih =>
      obtain ⟨k2, v2⟩ := hd
      simp only [dictInsert]
      by_cases h : k2 = k
      · rw [if_pos h]
        simp [dictGet]
      · rw [if_neg h]
        simp only [dictGet]
        rw [if_neg h, ih]

theorem dictGet_dictInsert_ne (k k2 : String) (v : IncarVal)
    (m : List (String × IncarVal)) (h : k2 ≠ k) :
    dictGet k2 (dictInsert k v m) = dictGet k2 m := by
  have hk : ¬(k = k2) := fun hh => h hh.symm
  induction m with
  | nil =>
      simp only [dictInsert, dictGet]
      rw [if_neg hk]
  | cons hd tl ih =>
      obtain ⟨k3, v3⟩ := hd
      simp only [dictInsert]
      by_cases h3 : k3 = k
      · rw [if_pos h3]
        simp only [dictGet]
        rw [if_neg hk, if_neg (by rw [h3]; exact hk)]
      · rw [if_neg h3]
        simp only [dictGet]
        by_cases h32 : k3 = k2
        · rw [if_pos h32, if_pos h32]
        · rw [if_neg h32, if_neg h32, ih]

theorem getWfDensity_ok_incar (fs : List String) (a : DensityArgs)
    (wf : WorkflowRec) (h : getWfDensity fs a = Except.ok wf) :
    wf.fw1.userIncarSettings = resolveUserIncarSettings a.overrideParams := by
  unfold getWfDensity buildAfterCopyCheck buildWorkflow at h
  split at h
  · split at h
    · exact Except.noConfusion h
    · split at h
      · exact Except.noConfusion h
      · split at h
        · split at h
          · exact Except.noConfusion h
          · injection h with h2
            subst h2
            rfl
        · injection h with h2
          subst h2
          rfl
  · split at h
    · split at h
      · exact Except.noConfusion h
      · injection h with h2
        subst h2
        rfl
    · injection h with h2
      subst h2
      rfl

/-- C1 counterexample: the claim states the controller treats a cycle as
converged exactly when `|measured - target_pressure| <= pressure_threshold`
(target_pressure defaulting to 0), symmetrically in sign.  At
`pressure_threshold = 5` and measured pressure `-6` the code emits the
terminal converged result `{pressure: -6, density_calculated: true}` with no
spawn, although `|-6 - 0| <= 5` fails: the source compares
`avg_pres > pressure_threshold` with no absolute value, so any pressure below
`-pressure_threshold` is also treated as converged. -/
theorem spawn_convergence_asymmetric_cex :
    runSpawnMDFWTask 5 [0] (-6) =
      { storedData := [("pressure", StoredVal.num (-6)),
                       ("density_calculated", StoredVal.bool true)],
        additions := [] } ∧
    ¬(|(-6 : ℚ) - 0| ≤ 5) := by
  refine ⟨by decide, by norm_num⟩

/-- C1 amended: for every completed cycle, `SpawnMDFWTask.run_task` treats
the cycle as converged exactly when the measured pressure is at most
`pressure_threshold` (one-sided comparison, inclusive boundary; no absolute
value is taken and no target pressure is consulted, so every measured
pressure below `target - threshold` also counts as converged), and in that
case emits the terminal result `{pressure: measured, density_calculated:
true}` and spawns no further cycle. -/
theorem spawn_converged_iff_le_threshold (pt p : ℚ) (parents : List ℕ) :
    runSpawnMDFWTask pt parents p =
      { storedData := [("pressure", StoredVal.num p),
                       ("density_calculated", StoredVal.bool true)],
        additions := [] } ↔ p ≤ pt := by
  simp only [runSpawnMDFWTask]
  split_ifs with h
  · constructor
    · intro hEq
      have h2 := congrArg FWAction.additions hEq
      exact absurd h2 (by simp)
    · intro hle
      exact absurd h (not_lt.mpr hle)
  · exact iff_of_true rfl (not_lt.mp h)

/-- C2: the claim states that when the measured pressure is out of tolerance
and `spawn_count >= max_spawns` the controller spawns nothing and emits
`{pressure: value, density_calculated: false}`, bounding every chain by
`max_spawns + 1` cycles.  The code has no such branch: `run_task` reads
neither `spawn_count` nor `max_rescales` (its params list has no such keys,
even though `get_wf_density` passes `max_rescales` and `spawn_count=0` to the
task), so — evaluated here at the failing input `pressure_threshold = 5`,
measured pressure `10`, with `spawn_count = max_spawns = 6` in the ignored
configuration — it appends a new firework unconditionally whenever the
pressure is above threshold, and its stored data carries no
`density_calculated` key at all in that branch. -/
theorem spawn_ignores_budget :
    (runSpawnMDFWTask 5 [0] 10).additions ≠ [] ∧
    (runSpawnMDFWTask 5 [0] 10).storedData.map Prod.fst = ["pressure"] := by
  decide

/-- C3: the claim states that the spawned unit of work depends on the
completing unit and contains the same internal steps including the re-decide
(spawn-decision) step.  Evaluated at the failing input (measured pressure 10,
threshold 5, current firework id 7): the new firework is created with
`parents = parents.extend(t)`, and Python's `list.extend` returns `None`, so
the child has no declared dependency; and its task list `t` contains no
spawn-decision task, so the child cannot itself spawn a further cycle. -/
theorem spawn_child_no_parent_no_redecide :
    (runSpawnMDFWTask 5 [7] 10).additions =
      [{ tasks := spawnTaskList 10, parents := none }] ∧
    (spawnTaskList 10).any isSpawnDecide = false := by
  decide

/-- C4: the claim states that on a continue decision the next cycle's rescale
step receives `initial_pressure` equal to the measured value (which holds)
and `initial_temperature` carried unchanged from the prior CycleState, with a
next CycleState carrying `spawn_count + 1`.  Evaluated at the failing input
(measured pressure 10, prior temperature 3000): the spawned task list
contains `RescaleVolumeTask(initial_pressure=10, initial_temperature=1)` —
the temperature is the hard-coded literal 1, not the carried value 3000 — and
contains no spawn task at all, so no incremented spawn count is constructed
or forwarded. -/
theorem spawn_child_rescale_config :
    TaskLabel.rescaleVolumeTask 10 1 ∈ spawnTaskList 10 ∧
    TaskLabel.rescaleVolumeTask 10 3000 ∉ spawnTaskList 10 ∧
    (spawnTaskList 10).any isSpawnDecide = false := by
  decide

/-- Concrete rescale parameters at which the sequential pipeline differs from
combining both corrections independently on the original volume. -/
def seqDemoParams : RescaleParams :=
  { initialTemperature := 0
    initialPressure := 0
    targetTemperature := 1
    targetPressure := 1
    alpha := 1
    beta := 1 }

/-- C5: in every run of `RescaleVolumeTask`, the two volume corrections are
applied sequentially to the same running volume — the final volume is the
original volume times the thermal factor, with the pressure factor then
applied to that thermally corrected volume — and this differs from applying
both corrections independently to the original volume (shown at
`seqDemoParams`, where the sequential result is 0 and the independent
combination is 100).  The order is thermal-then-pressure by construction of
`runRescaleVolume`, mirroring mdtasks.py lines 99 and 102. -/
theorem rescale_sequential_corrections :
    (∀ (p : RescaleParams) (v0 : ℚ),
        runRescaleVolume p v0 =
          v0 * (1 + p.alpha * (p.targetTemperature - p.initialTemperature))
             * (1 - p.beta * (p.targetPressure - p.initialPressure))) ∧
    runRescaleVolume seqDemoParams 100 ≠ independentCorrections seqDemoParams 100 := by
  constructor
  · intro p v0
    simp [runRescaleVolume, byThermo]
  · have h1 : runRescaleVolume seqDemoParams 100 = 0 := by
      norm_num [runRescaleVolume, byThermo, seqDemoParams]
    have h2 : independentCorrections seqDemoParams 100 = 100 := by
      norm_num [independentCorrections, seqDemoParams]
    rw [h1, h2]
    norm_num

/-- C6: if `target_temperature = initial_temperature` the thermal correction
leaves the volume unchanged, and if `target_pressure = initial_pressure` the
pressure correction leaves the volume unchanged; moreover, when
`RescaleVolumeTask` receives no `target_temperature` the resolved
`target_temperature` equals `initial_temperature`, making the thermal step an
identity. -/
theorem rescale_identity_laws (p : RescaleParams) (v iT iP : ℚ)
    (tP a b : Option ℚ) :
    (p.targetTemperature = p.initialTemperature → byThermo p ScaleKind.temperature v = v) ∧
    (p.targetPressure = p.initialPressure → byThermo p ScaleKind.pressure v = v) ∧
    (resolveRescaleParams iT iP none tP a b).targetTemperature = iT ∧
    byThermo (resolveRescaleParams iT iP none tP a b) ScaleKind.temperature v = v := by
  refine ⟨?_, ?_, rfl, ?_⟩
  · intro h
    simp [byThermo, h]
  · intro h
    simp [byThermo, h]
  · simp [byThermo, resolveRescaleParams]

/-- Concrete rescale parameters with target state equal to the current
state, used to instantiate the identity laws. -/
def identityDemoParams : RescaleParams :=
  { initialTemperature := 300
    initialPressure := 2
    targetTemperature := 300
    targetPressure := 2
    alpha := 1
    beta := 1 }

/-- Witness for the identity laws at `identityDemoParams` and volume 50. -/
theorem rescale_identity_laws_witness :
    byThermo identityDemoParams ScaleKind.temperature 50 = 50 ∧
    byThermo identityDemoParams ScaleKind.pressure 50 = 50 ∧
    (resolveRescaleParams 300 2 none none none none).targetTemperature = 300 :=
  ⟨(rescale_identity_laws identityDemoParams 50 300 2 none none none).1 rfl,
   (rescale_identity_laws identityDemoParams 50 300 2 none none none).2.1 rfl,
   (rescale_identity_laws identityDemoParams 50 300 2 none none none).2.2.1⟩

/-- C7: when `RescaleVolumeTask` is invoked without the optional parameters,
the resolved defaults are `alpha = 1e-5` (the source literal `10e-6`),
`beta = 1e-6` (the source literal `10e-7`) and `target_pressure = 0.0`, with
exact equality of the numeric constants. -/
theorem rescale_default_coefficients (iT iP : ℚ) :
    (resolveRescaleParams iT iP none none none none).alpha = 1 / 100000 ∧
    (resolveRescaleParams iT iP none none none none).beta = 1 / 1000000 ∧
    (resolveRescaleParams iT iP none none none none).targetPressure = 0 := by
  refine ⟨?_, ?_, rfl⟩ <;> norm_num [resolveRescaleParams]

/-- C8: in every run of `GetPressureTask`, the averaging fraction passed to
the pressure parser defaults to 0.5 when not supplied (running with no
fraction equals running with `some 0.5`), and whenever the parser returns a
nonempty result the emitted record stores under `avg_pres` the first parsed
value multiplied by exactly 1000. -/
theorem getPressure_default_fraction_and_scale (parsePres : ℚ → List ℚ)
    (af : Option ℚ) (p0 : ℚ) (tl : List ℚ)
    (h : parsePres (af.getD (1 / 2)) = p0 :: tl) :
    runGetPressureTask parsePres none = runGetPressureTask parsePres (some (1 / 2)) ∧
    runGetPressureTask parsePres af =
      some { storedData := [("avg_pres", StoredVal.num (p0 * 1000))],
             additions := [] } := by
  constructor
  · rfl
  · unfold runGetPressureTask
    rw [h]

/-- Witness for the GetPressureTask claim with a parser that always returns
the single value 2: the stored record is `avg_pres = 2 * 1000`. -/
theorem getPressure_default_fraction_and_scale_witness :
    runGetPressureTask (fun _ => [2]) none =
        runGetPressureTask (fun _ => [2]) (some (1 / 2)) ∧
    runGetPressureTask (fun _ => [2]) none =
      some { storedData := [("avg_pres", StoredVal.num (2 * 1000))],
             additions := [] } :=
  getPressure_default_fraction_and_scale (fun _ => [2]) none 2 [] rfl

theorem buildAfterCopyCheck_comp_falsy (a : DensityArgs) (ch : String)
    (hs : a.structureArg = StructureArg.comp)
    (ha : falsyOptList a.amorphousMakerParams = true) :
    buildAfterCopyCheck a ch = Except.error WfError.ampMissing := by
  unfold buildAfterCopyCheck
  split
  · rw [if_pos ha]
  · rename_i x hcontra
    exact absurd hs hcontra

/-- C9: `get_wf_density` raises a configuration error (a `ValueError`) before
any firework is constructed, both when copy-to-home is requested and the
destination workflow name already exists on disk, and when a composition
mapping is supplied without (truthy) `amorphous_maker_params`.  In the
embedding every firework is built by `buildWorkflow`, which is reached only
past these checks, so an error result means no partial workflow graph was
constructed. -/
theorem getWfDensity_fail_fast (fs : List String) (a : DensityArgs)
    (h : (a.copyCalcs = true ∧
            pathExists fs (a.calcHome ++ "/" ++ a.name) = true) ∨
         (a.structureArg = StructureArg.comp ∧
            falsyOptList a.amorphousMakerParams = true)) :
    isError (getWfDensity fs a) = true := by
  unfold getWfDensity
  rcases h with ⟨hc, hd⟩ | ⟨hs, ha⟩
  · rw [if_pos hc]
    by_cases hch : pathExists fs a.calcHome = false
    · rw [if_pos hch]; rfl
    · rw [if_neg hch, if_pos hd]; rfl
  · by_cases hcc : a.copyCalcs = true
    · rw [if_pos hcc]
      by_cases hch : pathExists fs a.calcHome = false
      · rw [if_pos hch]; rfl
      · rw [if_neg hch]
        by_cases hd : pathExists fs (a.calcHome ++ "/" ++ a.name) = true
        · rw [if_pos hd]; rfl
        · rw [if_neg hd, buildAfterCopyCheck_comp_falsy a _ hs ha]; rfl
    · rw [if_neg hcc, buildAfterCopyCheck_comp_falsy a _ hs ha]; rfl

/-- Arguments requesting copy-to-home where the destination name already
exists on the modelled disk. -/
def failFastDemoArgs : DensityArgs :=
  { copyCalcs := true
    calcHome := "home"
    name := "wf"
    structureArg := StructureArg.struct
    amorphousMakerParams := none
    overrideParams := none
    temperature := 3000
    nsteps := 2000
    pressureThreshold := 5
    maxRescales := 6 }

/-- Witness for the fail-fast claim: with `home/wf` already on disk and
copy-to-home requested, `get_wf_density` errors out. -/
theorem getWfDensity_fail_fast_witness :
    (failFastDemoArgs.copyCalcs = true ∧
      pathExists ["home", "home/wf"]
        (failFastDemoArgs.calcHome ++ "/" ++ failFastDemoArgs.name) = true) ∧
    isError (getWfDensity ["home", "home/wf"] failFastDemoArgs) = true :=
  ⟨⟨rfl, by decide⟩,
    getWfDensity_fail_fast ["home", "home/wf"] failFastDemoArgs
      (Or.inl ⟨rfl, by decide⟩)⟩

/-- C10: whenever `get_wf_density` returns a workflow, the
`user_incar_settings` mapping of its initial MD firework maps `ISIF` to 1 and
`LWAVE` to `False` — even when the caller supplied different values for those
keys — and agrees with the caller's mapping on every other key. -/
theorem getWfDensity_forces_incar_settings (fs : List String) (a : DensityArgs)
    (wf : WorkflowRec) (h : getWfDensity fs a = Except.ok wf) :
    dictGet "ISIF" wf.fw1.userIncarSettings = some (IncarVal.int 1) ∧
    dictGet "LWAVE" wf.fw1.userIncarSettings = some (IncarVal.bool false) ∧
    ∀ k : String, k ≠ "ISIF" → k ≠ "LWAVE" →
      dictGet k wf.fw1.userIncarSettings =
        dictGet k (callerIncar a.overrideParams) := by
  have e := getWfDensity_ok_incar fs a wf h
  rw [e]
  unfold resolveUserIncarSettings
  refine ⟨?_, ?_, ?_⟩
  · rw [dictGet_dictInsert_ne "LWAVE" "ISIF" _ _ (by decide),
      dictGet_dictInsert_self]
  · rw [dictGet_dictInsert_self]
  · intro k h1 h2
    rw [dictGet_dictInsert_ne _ _ _ _ h2, dictGet_dictInsert_ne _ _ _ _ h1]

/-- Arguments with caller-supplied user_incar_settings that set ISIF to 3 and
also carry an unrelated key NSW. -/
def incarDemoArgs : DensityArgs :=
  { copyCalcs := false
    calcHome := "home"
    name := "wf"
    structureArg := StructureArg.struct
    amorphousMakerParams := none
    overrideParams :=
      some (some [("ISIF", IncarVal.int 3), ("NSW", IncarVal.int 100)])
    temperature := 3000
    nsteps := 2000
    pressureThreshold := 5
    maxRescales := 6 }

/-- The workflow `get_wf_density` builds from `incarDemoArgs`: the caller's
`ISIF: 3` has been replaced by `ISIF: 1`, `LWAVE: False` has been added, and
`NSW: 100` is preserved. -/
def incarDemoWf : WorkflowRec :=
  { fw1 :=
      { startTemp := 3000
        endTemp := 3000
        nsteps := 2000
        name := "wfrun0"
        userIncarSettings :=
          [("ISIF", IncarVal.int 1), ("NSW", IncarVal.int 100),
           ("LWAVE", IncarVal.bool false)] }
    fw2Tasks := [TaskLabel.copyVaspOutputs, TaskLabel.spawnMDFW 5 6 0]
    name := "wf_WF" }

/-- Witness for the forced-INCAR claim at `incarDemoArgs`. -/
theorem getWfDensity_forces_incar_settings_witness :
    getWfDensity [] incarDemoArgs = Except.ok incarDemoWf ∧
    dictGet "ISIF" incarDemoWf.fw1.userIncarSettings = some (IncarVal.int 1) ∧
    dictGet "LWAVE" incarDemoWf.fw1.userIncarSettings =
      some (IncarVal.bool false) ∧
    dictGet "NSW" incarDemoWf.fw1.userIncarSettings =
      dictGet "NSW" (callerIncar incarDemoArgs.overrideParams) := by
  have hok : getWfDensity [] incarDemoArgs = Except.ok incarDemoWf := rfl
  have hmain := getWfDensity_forces_incar_settings [] incarDemoArgs incarDemoWf hok
  exact ⟨hok, hmain.1, hmain.2.1, hmain.2.2 "NSW" (by decide) (by decide)⟩
